import Mathlib

/-!
Verification of the compliance form system (schema.ts, pipeline docs).

The data model (Control, Group, Rule) and the status evaluator
`getControlStatus` are embedded from `schema.ts`.  The visibility gate,
coverage auditor, feedback merger and validator live outside the embedded
sources (viewer / architect scripts); they are modelled from the spec, as
marked in their doc comments.
-/

namespace Compliance

/-- Four-state status of one control, from `schema.ts` (`ControlStatus`). -/
inductive ControlStatus where
  | pending
  | success
  | warning
  | error
deriving DecidableEq, Repr

/-- One compliance control point, from `schema.ts` (`Control`).  String-enum
fields stay strings; optional fields are `Option`.  `correctOption` is
`Option String` so that the JS falsy check on an absent field is expressible. -/
structure Control where
  id : String
  label : String
  detailRequired : Bool
  correctOption : Option String
  detailLabel : Option String := none
  processId : Option String := none
  sourceRules : Option (List String) := none
  mappingConfidence : Option Rat := none
deriving DecidableEq, Repr

/-- Organisational container, from `schema.ts` (`Group`). -/
structure Group where
  id : String
  title : String
  description : Option String := none
deriving DecidableEq, Repr

/-- Visibility effect, from `schema.ts` (`Rule.effect`: "SHOW" | "HIDE"). -/
inductive Effect where
  | SHOW
  | HIDE
deriving DecidableEq, Repr

/-- The `schema` field of a rule, from `schema.ts` (`{ const: string }`). -/
structure RuleSchema where
  const : String
deriving DecidableEq, Repr

/-- Conditional visibility rule, from `schema.ts` (`Rule`). -/
structure Rule where
  target : String
  scope : String
  effect : Effect
  schema : RuleSchema
deriving DecidableEq, Repr

/-- A complete data bundle for one form section, from `schema.ts`
(`SectionData`). -/
structure SectionData where
  controls : List Control
  groups : List Group
  rules : List Rule
deriving DecidableEq, Repr

/-- JS `String.prototype.trim`: strip leading and trailing whitespace.
Embedded over character lists so it evaluates in the kernel. -/
def trimJS (s : String) : String :=
  ⟨((s.data.dropWhile Char.isWhitespace).reverse.dropWhile Char.isWhitespace).reverse⟩

/-- JS test `!detail || detail.trim() === ""` applied to an optional lookup
result: absent, empty, or whitespace-only after trimming. -/
def blankDetail : Option String → Bool
  | none => true
  | some d => d == "" || trimJS d == ""

/-- Status evaluator, from `schema.ts` (`getControlStatus`).  The answer map
`data : Record<string, string>` is a partial map `String → Option String`;
`data[k]` returning `undefined` is `none`. -/
def getControlStatus (control : Control) (data : String → Option String) :
    ControlStatus :=
  let answer := data control.id
  let detail := data (control.id ++ "_detail")
  if answer = none ∨ answer = some "" then .pending
  else if control.correctOption = none ∨ control.correctOption = some "" ∨
      control.correctOption = some "N/A" then .success
  else if answer ≠ control.correctOption then .error
  else if control.detailRequired = true ∧ blankDetail detail = true then .warning
  else .success

lemma trimJS_empty : trimJS "" = "" := rfl

lemma blankDetail_true_iff (o : Option String) :
    blankDetail o = true ↔ (o = none ∨ ∃ d, o = some d ∧ trimJS d = "") := by
  cases o with
  | none => simp [blankDetail]
  | some d =>
    simp only [blankDetail, Bool.or_eq_true, beq_iff_eq, Option.some.injEq]
    constructor
    · rintro (rfl | h)
      · exact Or.inr ⟨"", rfl, trimJS_empty⟩
      · exact Or.inr ⟨d, rfl, h⟩
    · rintro (h | ⟨d', rfl, h⟩)
      · exact absurd h (by simp)
      · exact Or.inr h

lemma blankDetail_false_iff (o : Option String) :
    blankDetail o = false ↔ ∃ d, o = some d ∧ trimJS d ≠ "" := by
  rw [← Bool.not_eq_true, blankDetail_true_iff]
  cases o with
  | none => simp
  | some d => simp

/-- C1: for a control whose correct-option is Yes or No, `getControlStatus`
returns pending iff the answer is absent or empty; otherwise error iff the
answer differs from correct-option; success iff it matches and detail is not
required or the detail answer is present and non-blank after trimming;
warning iff it matches but detail is required and absent or whitespace-only. -/
theorem getControlStatus_yes_no_spec (c : Control) (data : String → Option String)
    (hco : c.correctOption = some "Yes" ∨ c.correctOption = some "No") :
    (getControlStatus c data = .pending ↔
      (data c.id = none ∨ data c.id = some "")) ∧
    (¬(data c.id = none ∨ data c.id = some "") →
      ((getControlStatus c data = .error ↔ data c.id ≠ c.correctOption) ∧
       (getControlStatus c data = .success ↔
         data c.id = c.correctOption ∧
         (c.detailRequired = false ∨
           ∃ d, data (c.id ++ "_detail") = some d ∧ trimJS d ≠ "")) ∧
       (getControlStatus c data = .warning ↔
         data c.id = c.correctOption ∧ c.detailRequired = true ∧
         (data (c.id ++ "_detail") = none ∨
           ∃ d, data (c.id ++ "_detail") = some d ∧ trimJS d = "")))) := by
  have hco' : ¬(c.correctOption = none ∨ c.correctOption = some "" ∨
      c.correctOption = some "N/A") := by
    rcases hco with h | h <;> simp [h]
  by_cases hp : data c.id = none ∨ data c.id = some ""
  · refine ⟨⟨fun _ => hp, fun _ => by simp [getControlStatus, hp]⟩, ?_⟩
    intro h; exact absurd hp h
  · have hpel : getControlStatus c data =
        if data c.id ≠ c.correctOption then ControlStatus.error
        else if c.detailRequired = true ∧
            blankDetail (data (c.id ++ "_detail")) = true then ControlStatus.warning
        else ControlStatus.success := by
      simp only [getControlStatus]
      rw [if_neg hp, if_neg hco']
    refine ⟨⟨fun h => ?_, fun h => absurd h hp⟩, fun _ => ?_⟩
    · rw [hpel] at h
      split_ifs at h
    by_cases he : data c.id = c.correctOption
    · by_cases hw : c.detailRequired = true ∧
          blankDetail (data (c.id ++ "_detail")) = true
      · have hs : getControlStatus c data = .warning := by
          rw [hpel, if_neg (fun hne => hne he), if_pos hw]
        refine ⟨?_, ?_, ?_⟩
        · rw [hs]
          exact ⟨(fun h => by cases h), fun h => absurd he h⟩
        · rw [hs]
          refine ⟨(fun h => by cases h), ?_⟩
          rintro ⟨-, hd | ⟨d, hd, hne⟩⟩
          · exact absurd hd (by simp [hw.1])
          · rcases (blankDetail_true_iff _).mp hw.2 with h0 | ⟨d', hd', ht⟩
            · rw [h0] at hd; cases hd
            · rw [hd'] at hd
              injection hd with hdd
              exact absurd (hdd ▸ ht) hne
        · rw [hs]
          exact ⟨fun _ => ⟨he, hw.1, (blankDetail_true_iff _).mp hw.2⟩,
            fun _ => rfl⟩
      · have hs : getControlStatus c data = .success := by
          rw [hpel, if_neg (fun hne => hne he), if_neg hw]
        rw [not_and_or] at hw
        refine ⟨?_, ?_, ?_⟩
        · rw [hs]
          exact ⟨(fun h => by cases h), fun h => absurd he h⟩
        · rw [hs]
          refine ⟨fun _ => ⟨he, ?_⟩, fun _ => rfl⟩
          rcases hw with hd | hb
          · exact Or.inl (by simpa using hd)
          · exact Or.inr ((blankDetail_false_iff _).mp (by simpa using hb))
        · rw [hs]
          refine ⟨(fun h => by cases h), ?_⟩
          rintro ⟨-, hdr, habs⟩
          rcases hw with hd | hb
          · exact absurd hdr hd
          · exact absurd ((blankDetail_true_iff _).mpr habs) hb
    · have hs : getControlStatus c data = .error := by
        rw [hpel, if_pos he]
      refine ⟨⟨fun _ => he, fun _ => hs⟩, ?_, ?_⟩
      · rw [hs]
        refine ⟨(fun h => by cases h), ?_⟩
        rintro ⟨hEq, -⟩; exact absurd hEq he
      · rw [hs]
        refine ⟨(fun h => by cases h), ?_⟩
        rintro ⟨hEq, -⟩; exact absurd hEq he

/-- Concrete control from the spec's worked scenario. -/
def c4231 : Control :=
  { id := "4_2_3_1", label := "q", detailRequired := true,
    correctOption := some "Yes" }

/-- Concrete answer map: matching answer, whitespace-only detail. -/
def answers4231 : String → Option String := fun k =>
  if k = "4_2_3_1" then some "Yes"
  else if k = "4_2_3_1_detail" then some "  " else none

/-- C1 witness: the spec's concrete scenario for control 4_2_3_1, via the
general theorem. -/
theorem getControlStatus_yes_no_spec_witness :
    (c4231.correctOption = some "Yes" ∨ c4231.correctOption = some "No") ∧
    getControlStatus c4231 answers4231 = .warning :=
  ⟨Or.inl rfl, by
    have h := getControlStatus_yes_no_spec c4231 answers4231 (Or.inl rfl)
    exact (h.2 (by decide)).2.2.mpr
      ⟨by decide, rfl, Or.inr ⟨"  ", by decide, by decide⟩⟩⟩

/-- C3: for a control whose correct-option is "N/A" or absent, any non-empty
answer yields success, whatever the value, the detail-required flag and the
detail answer. -/
theorem getControlStatus_na_any_success (c : Control)
    (data : String → Option String)
    (hco : c.correctOption = some "N/A" ∨ c.correctOption = none)
    (ha : ∃ a, data c.id = some a ∧ a ≠ "") :
    getControlStatus c data = .success := by
  obtain ⟨a, ha1, ha2⟩ := ha
  have hp : ¬(data c.id = none ∨ data c.id = some "") := by
    rintro (h | h)
    · rw [ha1] at h; cases h
    · rw [ha1] at h
      injection h with h
      exact ha2 h
  simp only [getControlStatus]
  rw [if_neg hp, if_pos (by rcases hco with h | h <;> simp [h])]

/-- Scope-gate control with correct-option "N/A" and detail-required true. -/
def cNA : Control :=
  { id := "4_9", label := "gate", detailRequired := true,
    correctOption := some "N/A" }

/-- C3 witness: an arbitrary answer on an N/A control is success even though
detail is required and missing. -/
theorem getControlStatus_na_any_success_witness :
    (cNA.correctOption = some "N/A" ∨ cNA.correctOption = none) ∧
    getControlStatus cNA (fun k => if k = "4_9" then some "Maybe" else none) =
      .success :=
  ⟨Or.inl rfl,
    getControlStatus_na_any_success cNA
      (fun k => if k = "4_9" then some "Maybe" else none)
      (Or.inl rfl) ⟨"Maybe", by decide, by decide⟩⟩

/-- C9: `getControlStatus` depends only on the two answer keys `control.id`
and `control.id ++ "_detail"`: two answer maps agreeing there give the same
status, whatever the other keys hold. -/
theorem getControlStatus_depends_on_two_keys (c : Control)
    (d1 d2 : String → Option String)
    (h1 : d1 c.id = d2 c.id)
    (h2 : d1 (c.id ++ "_detail") = d2 (c.id ++ "_detail")) :
    getControlStatus c d1 = getControlStatus c d2 := by
  simp only [getControlStatus, h1, h2]

/-- C9 witness: an answer map with unrelated extra keys gives the same status
as one without them. -/
theorem getControlStatus_depends_on_two_keys_witness :
    ((fun k => if k = "other" then some "junk" else
        if k = "4_2_3_1" then some "Yes" else none) : String → Option String)
        c4231.id =
      ((fun k => if k = "4_2_3_1" then some "Yes" else none) :
        String → Option String) c4231.id ∧
    getControlStatus c4231
        (fun k => if k = "other" then some "junk" else
          if k = "4_2_3_1" then some "Yes" else none) =
      getControlStatus c4231 (fun k => if k = "4_2_3_1" then some "Yes" else none) :=
  ⟨by decide,
    getControlStatus_depends_on_two_keys c4231
      (fun k => if k = "other" then some "junk" else
        if k = "4_2_3_1" then some "Yes" else none)
      (fun k => if k = "4_2_3_1" then some "Yes" else none)
      (by decide) (by decide)⟩

/-- C10: for a control whose correct-option is "N/A" or absent, an absent or
empty answer yields pending, not success: the unanswered check runs first. -/
theorem getControlStatus_na_unanswered_pending (c : Control)
    (data : String → Option String)
    (hco : c.correctOption = some "N/A" ∨ c.correctOption = none)
    (ha : data c.id = none ∨ data c.id = some "") :
    getControlStatus c data = .pending ∧ getControlStatus c data ≠ .success := by
  have hp : getControlStatus c data = .pending := by
    simp only [getControlStatus]
    rw [if_pos ha]
  exact ⟨hp, by rw [hp]; exact fun h => by cases h⟩

/-- C10 witness: the N/A gate control with an empty answer map is pending. -/
theorem getControlStatus_na_unanswered_pending_witness :
    (cNA.correctOption = some "N/A" ∨ cNA.correctOption = none) ∧
    getControlStatus cNA (fun _ => none) = .pending :=
  ⟨Or.inl rfl,
    (getControlStatus_na_unanswered_pending cNA (fun _ => none)
      (Or.inl rfl) (Or.inl rfl)).1⟩

/-- Modelled from the spec: a gating rule is satisfied when the scope answer
equals its `schema.const` (§4.2); the viewer's `checkVisibility` code is not
among the embedded sources. -/
def ruleSatisfied (answers : String → Option String) (r : Rule) : Bool :=
  answers r.scope == some r.schema.const

/-- Modelled from the spec: `isVisible(id, rules, answers)` of the Visibility
Gate (§4.2).  Collect the rules targeting the id; the target is visible iff
(no SHOW rules exist among them or some SHOW rule is satisfied) and no HIDE
rule among them is satisfied. -/
def isVisible (idT : String) (rules : List Rule)
    (answers : String → Option String) : Bool :=
  let targeting := rules.filter (fun r => r.target == idT)
  let shows := targeting.filter (fun r => r.effect == Effect.SHOW)
  let hides := targeting.filter (fun r => r.effect == Effect.HIDE)
  (shows.isEmpty || shows.any (ruleSatisfied answers)) &&
    !(hides.any (ruleSatisfied answers))

/-- Functional update of an answer map at one key. -/
def updateAnswer (answers : String → Option String) (k v : String) :
    String → Option String := fun x => if x = k then some v else answers x

lemma isVisible_true_iff (idT : String) (rules : List Rule)
    (answers : String → Option String) :
    isVisible idT rules answers = true ↔
      (((∃ r ∈ rules, r.target = idT ∧ r.effect = Effect.SHOW ∧
          answers r.scope = some r.schema.const) ∨
        (∀ r ∈ rules, r.target = idT → r.effect ≠ Effect.SHOW)) ∧
       ¬∃ r ∈ rules, r.target = idT ∧ r.effect = Effect.HIDE ∧
          answers r.scope = some r.schema.const) := by
  simp only [isVisible, Bool.and_eq_true, Bool.or_eq_true, Bool.not_eq_true',
    List.isEmpty_iff, List.any_eq_true, List.mem_filter, List.any_eq_false,
    List.filter_eq_nil_iff, ruleSatisfied, beq_iff_eq]
  constructor
  · rintro ⟨h1, h2⟩
    constructor
    · rcases h1 with h1 | ⟨r, ⟨⟨hr, ht⟩, he⟩, hs⟩
      · exact Or.inr fun r hr htr => h1 r ⟨hr, htr⟩
      · exact Or.inl ⟨r, hr, ht, he, hs⟩
    · rintro ⟨r, hr, ht, he, hs⟩
      exact h2 r ⟨⟨hr, ht⟩, he⟩ hs
  · rintro ⟨⟨r, hr, ht, he, hs⟩ | h1, h2⟩
    · refine ⟨Or.inr ⟨r, ⟨⟨hr, ht⟩, he⟩, hs⟩, ?_⟩
      intro r' hm hsat
      exact h2 ⟨r', hm.1.1, hm.1.2, hm.2, hsat⟩
    · refine ⟨Or.inl fun r hm => h1 r hm.1 hm.2, ?_⟩
      intro r' hm hsat
      exact h2 ⟨r', hm.1.1, hm.1.2, hm.2, hsat⟩

/-- C2: `isVisible` is true exactly when (some SHOW rule targeting the id is
satisfied, or no SHOW rules target the id) and no HIDE rule targeting the id
is satisfied; in particular a satisfied HIDE rule hides the target even when
a SHOW rule targeting it is simultaneously satisfied. -/
theorem isVisible_spec (idT : String) (rules : List Rule)
    (answers : String → Option String) :
    (isVisible idT rules answers = true ↔
      (((∃ r ∈ rules, r.target = idT ∧ r.effect = Effect.SHOW ∧
          answers r.scope = some r.schema.const) ∨
        (∀ r ∈ rules, r.target = idT → r.effect ≠ Effect.SHOW)) ∧
       ¬∃ r ∈ rules, r.target = idT ∧ r.effect = Effect.HIDE ∧
          answers r.scope = some r.schema.const)) ∧
    ((∃ r ∈ rules, r.target = idT ∧ r.effect = Effect.HIDE ∧
        answers r.scope = some r.schema.const) →
      isVisible idT rules answers = false) := by
  refine ⟨isVisible_true_iff idT rules answers, fun hex => ?_⟩
  rw [Bool.eq_false_iff]
  intro hvis
  exact ((isVisible_true_iff idT rules answers).mp hvis).2 hex

/-- Rules for the C2 witness: a SHOW and a HIDE rule on the same target,
both satisfied. -/
def rulesC2 : List Rule :=
  [⟨"t", "s", Effect.SHOW, ⟨"Yes"⟩⟩, ⟨"t", "s2", Effect.HIDE, ⟨"Yes"⟩⟩]

/-- C2 witness: with both the SHOW and the HIDE rule satisfied, the target is
hidden. -/
theorem isVisible_spec_witness :
    isVisible "t" rulesC2 (fun _ => some "Yes") = false :=
  (isVisible_spec "t" rulesC2 (fun _ => some "Yes")).2
    ⟨⟨"t", "s2", Effect.HIDE, ⟨"Yes"⟩⟩, by decide, rfl, rfl, rfl⟩

/-- C4: a target no rule mentions is visible under every answer map. -/
theorem isVisible_no_rules (idT : String) (rules : List Rule)
    (answers : String → Option String)
    (h : ∀ r ∈ rules, r.target ≠ idT) :
    isVisible idT rules answers = true := by
  rw [isVisible_true_iff]
  refine ⟨Or.inr fun r hr ht => absurd ht (h r hr), ?_⟩
  rintro ⟨r, hr, ht, -, -⟩
  exact h r hr ht

/-- C4 witness: a rule list mentioning only other targets leaves "t" visible
under the empty answer map. -/
theorem isVisible_no_rules_witness :
    isVisible "t" [⟨"other", "s", Effect.SHOW, ⟨"Yes"⟩⟩] (fun _ => none) =
      true :=
  isVisible_no_rules "t" [⟨"other", "s", Effect.SHOW, ⟨"Yes"⟩⟩] (fun _ => none)
    (by decide)

/-- Rules for the C5 counterexample: a SHOW and a HIDE rule sharing scope and
constant, plus an independent satisfied SHOW rule. -/
def rulesC5 : List Rule :=
  [⟨"t", "s", Effect.SHOW, ⟨"Yes"⟩⟩,
   ⟨"t", "s", Effect.HIDE, ⟨"Yes"⟩⟩,
   ⟨"t", "s2", Effect.SHOW, ⟨"A"⟩⟩]

/-- Answer map for the C5 counterexample. -/
def answersC5 : String → Option String := fun k =>
  if k = "s" then some "No" else if k = "s2" then some "A" else none

/-- C5 counterexample: flipping scope "s" from a non-matching value to the
value matching the first SHOW rule's constant turns the target from visible
to hidden, because a HIDE rule with the same scope and constant becomes
satisfied. -/
theorem isVisible_monotone_cex :
    (⟨"t", "s", Effect.SHOW, ⟨"Yes"⟩⟩ : Rule) ∈ rulesC5 ∧
    answersC5 "s" ≠ some "Yes" ∧
    isVisible "t" rulesC5 answersC5 = true ∧
    isVisible "t" rulesC5 (updateAnswer answersC5 "s" "Yes") = false :=
  ⟨by decide, by decide, by decide, by decide⟩

/-- C5 amended: flipping a scope answer from non-matching to matching a SHOW
rule's constant never turns the target from visible to hidden, provided no
HIDE rule targeting the id shares that rule's scope and constant; and
setting a scope answer to a HIDE rule's constant never turns the target from
hidden to visible. -/
theorem isVisible_monotone_amended (idT : String) (rules : List Rule)
    (answers : String → Option String) :
    (∀ r, r ∈ rules → r.target = idT → r.effect = Effect.SHOW →
      answers r.scope ≠ some r.schema.const →
      (∀ g, g ∈ rules → g.target = idT → g.effect = Effect.HIDE →
        g.scope = r.scope → g.schema.const ≠ r.schema.const) →
      isVisible idT rules answers = true →
      isVisible idT rules (updateAnswer answers r.scope r.schema.const) =
        true) ∧
    (∀ g, g ∈ rules → g.target = idT → g.effect = Effect.HIDE →
      isVisible idT rules answers = false →
      isVisible idT rules (updateAnswer answers g.scope g.schema.const) =
        false) := by
  constructor
  · intro r hr ht he _ hnohide hvis
    rw [isVisible_true_iff] at hvis
    rw [isVisible_true_iff]
    refine ⟨Or.inl ⟨r, hr, ht, he, by simp [updateAnswer]⟩, ?_⟩
    rintro ⟨g, hg, hgt, hge, hgs⟩
    by_cases hsc : g.scope = r.scope
    · rw [updateAnswer, if_pos hsc] at hgs
      injection hgs with hgs
      exact hnohide g hg hgt hge hsc hgs.symm
    · rw [updateAnswer, if_neg hsc] at hgs
      exact hvis.2 ⟨g, hg, hgt, hge, hgs⟩
  · intro g hg hgt hge _
    rw [Bool.eq_false_iff]
    intro hvis
    rw [isVisible_true_iff] at hvis
    exact hvis.2 ⟨g, hg, hgt, hge, by simp [updateAnswer]⟩

/-- HIDE-free rule list for the amended-C5 witness. -/
def rulesC5a : List Rule :=
  [⟨"t", "s", Effect.SHOW, ⟨"Yes"⟩⟩, ⟨"t", "s2", Effect.SHOW, ⟨"A"⟩⟩]

/-- Single-HIDE rule list for the amended-C5 witness. -/
def rulesC5b : List Rule := [⟨"t", "s", Effect.HIDE, ⟨"Yes"⟩⟩]

/-- C5 witness: both halves of the amended monotonicity statement at concrete
inputs. -/
theorem isVisible_monotone_amended_witness :
    isVisible "t" rulesC5a (updateAnswer answersC5 "s" "Yes") = true ∧
    isVisible "t" rulesC5b (updateAnswer (fun _ => some "Yes") "s" "Yes") =
      false :=
  ⟨(isVisible_monotone_amended "t" rulesC5a answersC5).1
      ⟨"t", "s", Effect.SHOW, ⟨"Yes"⟩⟩ (by decide) rfl rfl (by decide)
      (by decide) (by decide),
    (isVisible_monotone_amended "t" rulesC5b (fun _ => some "Yes")).2
      ⟨"t", "s", Effect.HIDE, ⟨"Yes"⟩⟩ (by decide) rfl rfl (by decide)⟩

/-- Coverage report shape (§3, §4.5): three sets of rule codes. -/
structure CoverageReport where
  mapped : Finset String
  unmapped : Finset String
  extra : Finset String
deriving DecidableEq

/-- Modelled from the spec: `compute_coverage_report` (§4.5) — the architect
script holding its code is not among the embedded sources.  `mapped` is the
intersection, `unmapped` the input minus output, `extra` the output minus
input. -/
def compute_coverage_report (input output : Finset String) : CoverageReport :=
  { mapped := input ∩ output
    unmapped := input \ output
    extra := output \ input }

/-- Modelled from the spec: `extract_output_rule_codes` — the set of all rule
codes claimed via `source-rules` across a list of generated controls. -/
def extract_output_rule_codes (controls : List Control) : Finset String :=
  controls.foldr (fun c acc => (c.sourceRules.getD []).toFinset ∪ acc) ∅

lemma extract_output_rule_codes_cons (c : Control) (l : List Control) :
    extract_output_rule_codes (c :: l) =
      (c.sourceRules.getD []).toFinset ∪ extract_output_rule_codes l := rfl

/-- C6: the coverage report realises the claimed set algebra, is
order-independent in the extracted control list, and is deterministic on
unchanged inputs. -/
theorem compute_coverage_report_spec (input output input' output' : Finset String)
    (cs cs' : List Control) (hp : cs.Perm cs')
    (hin : input = input') (hout : output = output') :
    (compute_coverage_report input output).mapped = input ∩ output ∧
    (compute_coverage_report input output).unmapped = input \ output ∧
    (compute_coverage_report input output).extra = output \ input ∧
    (compute_coverage_report input output).mapped ∪
      (compute_coverage_report input output).unmapped = input ∧
    (compute_coverage_report input output).mapped ∪
      (compute_coverage_report input output).extra = output ∧
    (compute_coverage_report input output).mapped ∩
      (compute_coverage_report input output).unmapped = ∅ ∧
    (compute_coverage_report input output).mapped ∩
      (compute_coverage_report input output).extra = ∅ ∧
    extract_output_rule_codes cs = extract_output_rule_codes cs' ∧
    compute_coverage_report input output =
      compute_coverage_report input' output' := by
  refine ⟨rfl, rfl, rfl, ?_, ?_, ?_, ?_, ?_, by rw [hin, hout]⟩
  · ext x
    simp only [compute_coverage_report, Finset.mem_union, Finset.mem_inter,
      Finset.mem_sdiff]
    tauto
  · ext x
    simp only [compute_coverage_report, Finset.mem_union, Finset.mem_inter,
      Finset.mem_sdiff]
    tauto
  · ext x
    simp only [compute_coverage_report, Finset.mem_inter, Finset.mem_sdiff,
      Finset.not_mem_empty, iff_false]
    tauto
  · ext x
    simp only [compute_coverage_report, Finset.mem_inter, Finset.mem_sdiff,
      Finset.not_mem_empty, iff_false]
    tauto
  · induction hp with
    | nil => rfl
    | cons x _ ih =>
      rw [extract_output_rule_codes_cons, extract_output_rule_codes_cons, ih]
    | swap x y l =>
      rw [extract_output_rule_codes_cons, extract_output_rule_codes_cons,
        extract_output_rule_codes_cons, extract_output_rule_codes_cons,
        Finset.union_left_comm]
    | trans _ _ ih1 ih2 => rw [ih1, ih2]

/-- Control claiming rule code 4.1, for the C6 witness. -/
def covControlA : Control :=
  { id := "4_1_1", label := "a", detailRequired := false,
    correctOption := some "Yes", sourceRules := some ["4.1"] }

/-- Control claiming rule code 4.4, for the C6 witness. -/
def covControlB : Control :=
  { id := "4_1_2", label := "b", detailRequired := false,
    correctOption := some "Yes", sourceRules := some ["4.4"] }

/-- C6 witness: the spec's concrete scenario, with the control list permuted. -/
theorem compute_coverage_report_spec_witness :
    (compute_coverage_report {"4.1", "4.2", "4.3"} {"4.1", "4.4"}).mapped ∪
        (compute_coverage_report {"4.1", "4.2", "4.3"} {"4.1", "4.4"}).unmapped =
      ({"4.1", "4.2", "4.3"} : Finset String) ∧
    extract_output_rule_codes [covControlA, covControlB] =
      extract_output_rule_codes [covControlB, covControlA] := by
  have h := compute_coverage_report_spec {"4.1", "4.2", "4.3"} {"4.1", "4.4"}
    {"4.1", "4.2", "4.3"} {"4.1", "4.4"} [covControlA, covControlB]
    [covControlB, covControlA] (List.Perm.swap covControlB covControlA [])
    rfl rfl
  exact ⟨h.2.2.2.1, h.2.2.2.2.2.2.2.1⟩

/-- Lowercase ASCII letter, for the documented regex patterns. -/
def isLowerAZ (c : Char) : Bool := 'a' ≤ c && c ≤ 'z'

/-- ASCII digit, for the documented regex patterns. -/
def isDigit09 (c : Char) : Bool := '0' ≤ c && c ≤ '9'

/-- Automaton state for matching the tail of `ID_REGEX` after the leading
'4': at a group boundary, just after an underscore, or inside a digit run. -/
inductive CtrlState where
  | bound (seen : Bool)
  | us (seen : Bool)
  | dig
deriving DecidableEq, Repr

/-- One-character-at-a-time matcher for `(_\d+)+(_[a-z])?`; `seen` records
whether at least one digit group has been completed. -/
def ctrlStep : CtrlState → List Char → Bool
  | .bound seen, [] => seen
  | .bound seen, c :: rest => c == '_' && ctrlStep (.us seen) rest
  | .us _, [] => false
  | .us seen, c :: rest =>
    if isDigit09 c then ctrlStep .dig rest
    else if isLowerAZ c then seen && rest.isEmpty
    else false
  | .dig, [] => true
  | .dig, c :: rest =>
    if isDigit09 c then ctrlStep .dig rest
    else c == '_' && ctrlStep (.us true) rest

/-- Matcher for the documented Control id pattern over characters. -/
def ctrlChars : List Char → Bool
  | [] => false
  | c :: rest => c == '4' && ctrlStep (.bound false) rest

/-- Modelled from the spec: `ID_REGEX` `^4(_\d+)+(_[a-z])?$` for Control ids
(pipeline key schema rules). -/
def isControlId (s : String) : Bool := ctrlChars s.data

/-- Matcher for the documented Group slug pattern over characters. -/
def slugChars : List Char → Bool
  | [] => false
  | c :: cs =>
    isLowerAZ c && cs.all (fun d => isLowerAZ d || isDigit09 d || d == '-')

/-- Modelled from the spec: `SLUG_REGEX` `^[a-z][a-z0-9-]*$` for Group ids
(pipeline key schema rules). -/
def isSlug (s : String) : Bool := slugChars s.data

/-- Modelled from the spec: Validator rule (2) of §4.1 — groups whose id
violates the slug pattern are dropped, conforming groups kept; the validator
code (architect script) is not among the embedded sources. -/
def validateGroups (gs : List Group) : List Group :=
  gs.filter (fun g => isSlug g.id)

lemma slugChars_not_ctrlChars (l : List Char) :
    slugChars l = true → ctrlChars l = false := by
  cases l with
  | nil => intro h; cases h
  | cons c cs =>
    intro h
    have hc : isLowerAZ c = true := by
      rw [slugChars] at h
      exact (Bool.and_eq_true _ _ |>.mp h).1
    have hne : c ≠ '4' := by
      intro h4
      rw [h4] at hc
      cases hc
    rw [ctrlChars, beq_eq_false_iff_ne.mpr hne, Bool.false_and]

/-- C8: every group retained by the validator has a slug id, which is never a
numeric/hierarchical control code; groups with a non-slug id are dropped. -/
theorem validateGroups_slug_spec (gs : List Group) :
    (∀ g ∈ validateGroups gs, isSlug g.id = true ∧ isControlId g.id = false) ∧
    (∀ g ∈ gs, isSlug g.id = false → g ∉ validateGroups gs) := by
  constructor
  · intro g hg
    have hmem := List.mem_filter.mp hg
    exact ⟨hmem.2, slugChars_not_ctrlChars g.id.data hmem.2⟩
  · intro g _ hbad hmem
    have hkeep := (List.mem_filter.mp hmem).2
    rw [hbad] at hkeep
    cases hkeep

/-- Group with a conforming slug id. -/
def goodGroup : Group := { id := "collection-kyc", title := "Collection" }

/-- Group with a numeric id, to be dropped. -/
def badGroup : Group := { id := "4_2", title := "Numeric" }

/-- C8 witness: the slug group survives validation with a non-numeric slug id
and the numeric-id group is dropped. -/
theorem validateGroups_slug_spec_witness :
    (isSlug goodGroup.id = true ∧ isControlId goodGroup.id = false) ∧
    badGroup ∉ validateGroups [goodGroup, badGroup] :=
  ⟨(validateGroups_slug_spec [goodGroup, badGroup]).1 goodGroup (by decide),
    (validateGroups_slug_spec [goodGroup, badGroup]).2 badGroup (by decide)
      (by decide)⟩

/-- Feedback note severity (§3): approved, info, warning or error. -/
inductive Severity where
  | approved
  | info
  | warning
  | error
deriving DecidableEq, Repr

/-- One per-control SME comment (§3 `control_notes` values). -/
structure ControlNote where
  comment : String
  severity : Severity
deriving DecidableEq, Repr

/-- Partial Control patch (§3 `control_overrides` values): each non-id field
optionally replaced.  The patch targets the control matched by id, so the id
itself is not part of the patch. -/
structure ControlPatch where
  label : Option String := none
  detailRequired : Option Bool := none
  correctOption : Option String := none
  detailLabel : Option String := none
  processId : Option String := none
  sourceRules : Option (List String) := none
  mappingConfidence : Option Rat := none
deriving DecidableEq, Repr

/-- Modelled from the spec: field-level application of one override patch onto
the matching control (§4.6): present patch fields replace the generated
field, absent ones keep it. -/
def applyPatch (p : ControlPatch) (c : Control) : Control :=
  { id := c.id
    label := p.label.getD c.label
    detailRequired := p.detailRequired.getD c.detailRequired
    correctOption := p.correctOption.or c.correctOption
    detailLabel := p.detailLabel.or c.detailLabel
    processId := p.processId.or c.processId
    sourceRules := p.sourceRules.or c.sourceRules
    mappingConfidence := p.mappingConfidence.or c.mappingConfidence }

/-- Feedback file (§3): notes, per-control notes, overrides and additional
controls.  Mappings are association lists keyed by control id. -/
structure FeedbackFile where
  form_id : String
  notes : List String
  control_notes : List (String × ControlNote)
  control_overrides : List (String × ControlPatch)
  additional_controls : List Control
deriving DecidableEq, Repr

/-- Review metadata attached to a merged artifact (§3, §4.6). -/
structure ReviewMetadata where
  form_id : String
  last_updated : String
  control_notes : List (String × ControlNote)
deriving DecidableEq, Repr

/-- Questionnaire artifact as consumed by the merger (§6): controls, groups,
rules and optional review metadata. -/
structure Artifact where
  controls : List Control
  groups : List Group
  rules : List Rule
  reviewMetadata : Option ReviewMetadata := none
deriving DecidableEq, Repr

/-- First override patch registered for a control id, if any. -/
def lookupOverride (ovs : List (String × ControlPatch)) (i : String) :
    Option ControlPatch :=
  (ovs.find? (fun kv => kv.1 == i)).map (fun kv => kv.2)

/-- Modelled from the spec: the Schema and Validator pass applied to an
additional control (§4.6 with §4.1 rule (1)): its id must match the Control
id pattern, otherwise the control is dropped. -/
def validControl (c : Control) : Bool := isControlId c.id

/-- Prompt guidance extracted from a feedback file (§4.6): the form notes and
the control notes of severity warning or error. -/
structure PromptGuidance where
  notes : List String
  flagged : List (String × ControlNote)
deriving DecidableEq, Repr

/-- Modelled from the spec: classification of feedback into prompt guidance
(§4.6): `notes` always, `control_notes` only at severity warning/error. -/
def promptGuidanceOf (f : FeedbackFile) : PromptGuidance :=
  { notes := f.notes
    flagged := f.control_notes.filter (fun kv =>
      kv.2.severity == Severity.warning || kv.2.severity == Severity.error) }

/-- Modelled from the spec: the merged artifact of `applyFeedback` (§4.6).
Overrides are applied as field patches onto matching controls, validated
additional controls are appended, and `_review_metadata` is recomputed with
the supplied timestamp (real time is passed in explicitly). -/
def mergedOf (now : String) (a : Artifact) (f : FeedbackFile) : Artifact :=
  { controls :=
      (a.controls.map (fun c =>
        match lookupOverride f.control_overrides c.id with
        | some p => applyPatch p c
        | none => c)) ++ f.additional_controls.filter validControl
    groups := a.groups
    rules := a.rules
    reviewMetadata := some
      { form_id := f.form_id
        last_updated := now
        control_notes := f.control_notes } }

/-- Modelled from the spec: `applyFeedback(generatedArtifact, feedbackFile) ->
(promptGuidance, mergedArtifact)` (§4.6). -/
def applyFeedback (now : String) (a : Artifact) (f : FeedbackFile) :
    PromptGuidance × Artifact :=
  (promptGuidanceOf f, mergedOf now a f)

/-- Additional control for the C7 counterexample: valid id, so it is kept. -/
def extraControl : Control :=
  { id := "4_7_1", label := "added", detailRequired := false,
    correctOption := some "Yes" }

/-- Feedback file holding one additional control and nothing else. -/
def feedbackWithAddition : FeedbackFile :=
  { form_id := "cdd-individuals", notes := [], control_notes := [],
    control_overrides := [], additional_controls := [extraControl] }

/-- Empty generated artifact for the C7 counterexample. -/
def emptyArtifact : Artifact := { controls := [], groups := [], rules := [] }

/-- C7 counterexample: re-applying a feedback file with a non-empty
`additional_controls` list appends the additional control a second time, so
the double application differs from the single one. -/
theorem applyFeedback_idem_cex :
    (applyFeedback "t0"
        (applyFeedback "t0" emptyArtifact feedbackWithAddition).2
        feedbackWithAddition).2 ≠
      (applyFeedback "t0" emptyArtifact feedbackWithAddition).2 := by
  decide

lemma option_getD_idem {α : Type} (o : Option α) (x : α) :
    o.getD (o.getD x) = o.getD x := by
  cases o <;> rfl

lemma option_or_idem {α : Type} (o o' : Option α) :
    o.or (o.or o') = o.or o' := by
  cases o <;> rfl

lemma applyPatch_idem (p : ControlPatch) (c : Control) :
    applyPatch p (applyPatch p c) = applyPatch p c := by
  simp only [applyPatch, option_getD_idem, option_or_idem]

lemma applyPatch_id (p : ControlPatch) (c : Control) :
    (applyPatch p c).id = c.id := rfl

/-- C7 amended: with no surviving additional controls, applying the same
feedback file to the merged artifact reproduces it: override patches target
the original generated fields and never compound. -/
theorem applyFeedback_idem_amended (now : String) (a : Artifact)
    (f : FeedbackFile)
    (hadd : f.additional_controls.filter validControl = []) :
    (applyFeedback now (applyFeedback now a f).2 f).2 =
      (applyFeedback now a f).2 := by
  simp only [applyFeedback, mergedOf, hadd, List.append_nil]
  have hstep : ∀ c : Control,
      (match lookupOverride f.control_overrides
          (match lookupOverride f.control_overrides c.id with
           | some p => applyPatch p c
           | none => c).id with
       | some p => applyPatch p
          (match lookupOverride f.control_overrides c.id with
           | some p => applyPatch p c
           | none => c)
       | none =>
          (match lookupOverride f.control_overrides c.id with
           | some p => applyPatch p c
           | none => c)) =
        (match lookupOverride f.control_overrides c.id with
         | some p => applyPatch p c
         | none => c) := by
    intro c
    cases hlo : lookupOverride f.control_overrides c.id with
    | none => simp [hlo]
    | some p => simp [hlo, applyPatch_id, applyPatch_idem]
  congr 1
  rw [List.map_map]
  exact List.map_congr_left (fun c _ => hstep c)

/-- Override patch for the C7 witness. -/
def demoPatch : ControlPatch := { label := some "patched" }

/-- Feedback file with one override and no additional controls. -/
def feedbackOverrideOnly : FeedbackFile :=
  { form_id := "cdd-individuals", notes := ["tighten wording"],
    control_notes := [("4_2_3_1", ⟨"ok", Severity.approved⟩)],
    control_overrides := [("4_2_3_1", demoPatch)],
    additional_controls := [] }

/-- Generated artifact with one control, for the C7 witness. -/
def demoArtifact : Artifact :=
  { controls := [c4231], groups := [goodGroup], rules := [] }

/-- C7 witness: the amended idempotence at a concrete artifact and feedback
file with an override and no additional controls. -/
theorem applyFeedback_idem_amended_witness :
    (applyFeedback "2026-02-20" (applyFeedback "2026-02-20" demoArtifact
        feedbackOverrideOnly).2 feedbackOverrideOnly).2 =
      (applyFeedback "2026-02-20" demoArtifact feedbackOverrideOnly).2 :=
  applyFeedback_idem_amended "2026-02-20" demoArtifact feedbackOverrideOnly rfl

end Compliance
